import Mathlib

/-!
# Verification of the AP-coverage demo scripts

Shallow embedding of the original logic of the repository's demo scripts:

* `load_transmitters` — the CSV access-point loader of
  `src/sionna-simulation/simple_demo.py` (rows with fewer than four fields or
  an unparseable coordinate are skipped with one warning each; the parse
  failure is caught by a `try`/`except`, so the loader itself never raises).
* `load_ap_coordinates` — the CSV loader of
  `src/sionna-simulation/demo_lightweight.py` and
  `src/sionna-simulation/real_building_coverage.py` (rows with fewer than four
  fields are skipped silently; `float()` is called without a `try`, so an
  unparseable coordinate raises `ValueError`, modelled as `Except.error`).
* `calculate_path_loss`, `simulate_coverage_grid` — the placeholder path-loss
  estimator and per-cell coverage aggregation of
  `src/sionna-simulation/real_building_coverage.py`.

Python's floating point arithmetic is modelled over the exact reals `ℝ`
(for the path-loss/coverage arithmetic) and rationals `ℚ` (for parsed CSV
coordinates); `numpy` reductions over an empty axis, which raise, are
modelled as `Option`/pattern matches on the empty list.
-/

namespace SionnaSpec

/-! ## A model of Python `float()` on plain decimal literals

Only the fragment of `float()`'s grammar exercised by the coordinate files is
modelled: an optional sign, then digits with an optional fractional part
(`"12"`, `"-3.5"`, `"7."`, `".25"`).  Exponents and special forms such as
`"inf"` are not needed by any claim; what the claims use is only that a
numeric field parses to its value and a non-numeric field fails. -/

def digitVal? (ch : Char) : Option ℕ :=
  if '0' ≤ ch ∧ ch ≤ '9' then some (ch.toNat - 48) else none

/-- Value of a (possibly empty) digit string; `none` if any char is no digit. -/
def digitsVal? (cs : List Char) : Option ℕ :=
  cs.foldl (fun acc ch => acc.bind fun n => (digitVal? ch).map fun d => 10 * n + d)
    (some 0)

/-- Split a char list at the first dot, dropping the dot. -/
def splitAtDot (cs : List Char) : List Char × Option (List Char) :=
  match cs.span (fun ch => ch ≠ '.') with
  | (intPart, []) => (intPart, none)
  | (intPart, _ :: frac) => (intPart, some frac)

/-- Model of Python's `float()` on plain decimal literals (see above). -/
def pyFloat? (s : String) : Option ℚ :=
  match s.toList with
  | [] => none
  | cs =>
    let signed : Bool × List Char :=
      match cs with
      | '-' :: rest => (true, rest)
      | '+' :: rest => (false, rest)
      | _ => (false, cs)
    let body := signed.2
    let signApply : ℚ → ℚ := fun v => if signed.1 then -v else v
    match splitAtDot body with
    | (ip, none) =>
      if ip.isEmpty then none
      else (digitsVal? ip).map fun n => signApply n
    | (ip, some fp) =>
      if ip.isEmpty ∧ fp.isEmpty then none
      else
        (digitsVal? ip).bind fun n =>
          (digitsVal? fp).map fun m =>
            signApply ((n : ℚ) + (m : ℚ) / 10 ^ fp.length)

/-! ## The AP loaders -/

/-- A CSV row, as the list of its fields (what `csv.reader` yields per line). -/
abbrev Row := List String

/-- A parsed transmitter record: `(name, x, y, z)`. -/
abbrev Tx := String × ℚ × ℚ × ℚ

/-- One iteration of the loop body of `simple_demo.load_transmitters`:
a row with at least four fields whose coordinate fields all parse yields a
transmitter `(row[0], *map(float, row[1:4]))`; a parse failure is the caught
`ValueError` branch and a short row the `else` branch, each yielding one
warning string. -/
def loadRow (row : Row) : Except String Tx :=
  match row with
  | name :: f1 :: f2 :: f3 :: _ =>
    match pyFloat? f1, pyFloat? f2, pyFloat? f3 with
    | some x, some y, some z => .ok (name, x, y, z)
    | _, _, _ => .error "Warning: Could not parse row"
  | _ => .error "Warning: Invalid row"

/-- `simple_demo.load_transmitters`: the list of parsed transmitters in input
order, paired with the list of per-row warnings (the printed diagnostics) in
input order.  Total: every raise inside the loop body is caught. -/
def load_transmitters : List Row → List Tx × List String
  | [] => ([], [])
  | row :: rest =>
    let res := load_transmitters rest
    match loadRow row with
    | .ok t => (t :: res.1, res.2)
    | .error e => (res.1, e :: res.2)

/-- `demo_lightweight.load_ap_coordinates` (also
`real_building_coverage.load_ap_coordinates`): rows with fewer than four
fields are skipped silently, and `float(row[1])` etc. are called with no
`try`, so the first unparseable coordinate field raises `ValueError`
(modelled as `Except.error`), aborting the whole load. -/
def load_ap_coordinates : List Row → Except String (List Tx)
  | [] => .ok []
  | row :: rest =>
    match row with
    | name :: f1 :: f2 :: f3 :: _ =>
      match pyFloat? f1, pyFloat? f2, pyFloat? f3 with
      | some x, some y, some z =>
        (load_ap_coordinates rest).map fun l => (name, x, y, z) :: l
      | _, _, _ => .error "ValueError: could not convert string to float"
    | _ => load_ap_coordinates rest

/-! ## The two pipeline entry points (their data-dependent control flow)

Both `main` functions are modelled after their input files have been checked
to exist, as a function of the parsed content of the AP coordinate file(s);
the result is the process exit code together with the list of artifact files
the run writes. -/

/-- `simple_demo.main` on an existing AP file with the given rows: if loading
raises (it cannot) or yields no transmitters, exit 1 with no artifacts
written; otherwise `create_summary_report` writes `ap_summary.txt` and the
script exits 0. -/
def simpleDemoMain (rows : List Row) : ℕ × List String :=
  let txs := (load_transmitters rows).1
  if txs.isEmpty then (1, []) else (0, ["ap_summary.txt"])

/-- One test case of `demo_lightweight.main` (both its input files exist):
if `load_ap_coordinates` raises, the `except` branch reports a failed case
and nothing is written; otherwise `simulate_coverage_basic` writes its two
artifact files — with no check that any AP was parsed — and the case counts
as a success. -/
def demoLightweightCase (rows : List Row) : Bool × List String :=
  match load_ap_coordinates rows with
  | .error _ => (false, [])
  | .ok _ => (true, ["simulation_results.json", "coverage_summary.txt"])

/-- `demo_lightweight.main` runs two hard-coded test cases and exits 0
exactly when every case succeeded (`success_count == len(test_cases)`). -/
def demoLightweightMain (rows1 rows2 : List Row) : ℕ :=
  if (demoLightweightCase rows1).1 && (demoLightweightCase rows2).1 then 0 else 1

/-! ## The placeholder path-loss estimator and coverage aggregation
(`real_building_coverage.py`) -/

/-- A loaded access point as built by
`real_building_coverage.load_ap_coordinates`: a name, a 3D position, the
carrier frequency (always `2.4e9` Hz there) and the transmit power in dBm
(always `20.0` there). -/
structure AP where
  name : String
  x : ℝ
  y : ℝ
  z : ℝ
  frequency : ℝ
  power_dbm : ℝ

/-- The speed of light constant `c = 3e8` of `calculate_path_loss`. -/
noncomputable def c : ℝ := 3 * 10 ^ 8

/-- `calculate_path_loss(distance, frequency, obstacles)`: `0` at
non-positive distance, otherwise the free-space Friis term
`20*log10(d) + 20*log10(f) + 20*log10(4*pi/c)` plus `10` dB per obstacle. -/
noncomputable def calculate_path_loss (distance frequency : ℝ) (obstacles : ℕ) : ℝ :=
  if distance ≤ 0 then 0
  else
    20 * Real.logb 10 distance + 20 * Real.logb 10 frequency +
      20 * Real.logb 10 (4 * Real.pi / c) + obstacles * 10

/-- The obstacle estimate of `simulate_coverage_grid`:
`np.where(distances > 15, 1, 0)` then `np.where(distances > 30, 2, ...)`. -/
noncomputable def obstacleCount (distance : ℝ) : ℕ :=
  if 30 < distance then 2 else if 15 < distance then 1 else 0

/-- The distance from an AP to a grid point used by `simulate_coverage_grid`:
`sqrt((X - ap_x)**2 + (Y - ap_y)**2 + (ap_z - 1.5)**2)` (receiver at 1.5 m). -/
noncomputable def gridDistance (ap : AP) (p : ℝ × ℝ) : ℝ :=
  Real.sqrt ((p.1 - ap.x) ^ 2 + (p.2 - ap.y) ^ 2 + (ap.z - 3 / 2) ^ 2)

/-- The per-transmitter received-power estimate at a grid point:
`received_power = ap['power_dbm'] - path_loss` with the distance-derived
obstacle count. -/
noncomputable def estimate (ap : AP) (p : ℝ × ℝ) : ℝ :=
  ap.power_dbm -
    calculate_path_loss (gridDistance ap p) ap.frequency (obstacleCount (gridDistance ap p))

/-- The aggregation loop of `simulate_coverage_grid` at one grid cell:
starting from `signal_strength = 0` and `best_ap = -1`, each transmitter `i`
in turn replaces the accumulator exactly when its estimate is strictly
stronger (`received_power > signal_strength`). -/
noncomputable def coverAux (p : ℝ × ℝ) : ℕ → ℝ × ℤ → List AP → ℝ × ℤ
  | _, acc, [] => acc
  | i, acc, ap :: rest =>
    coverAux p (i + 1)
      (if acc.1 < estimate ap p then (estimate ap p, (i : ℤ)) else acc) rest

/-- The per-cell coverage value and winning-transmitter index of
`simulate_coverage_grid`. -/
noncomputable def cellCover (aps : List AP) (p : ℝ × ℝ) : ℝ × ℤ :=
  coverAux p 0 (0, -1) aps

/-- The coverage-area bounding box of `simulate_coverage_grid`:
componentwise `np.min`/`np.max` of the transmitter `(x, y)` positions,
expanded by 20 m on each side.  `np.min`/`np.max` over the empty position
array raise `ValueError`, modelled by matching only non-empty lists. -/
noncomputable def coverageBBox (a : AP) (rest : List AP) : (ℝ × ℝ) × (ℝ × ℝ) :=
  let xs := (a :: rest).map AP.x
  let ys := (a :: rest).map AP.y
  ((xs.foldl min a.x - 20, ys.foldl min a.y - 20),
    (xs.foldl max a.x + 20, ys.foldl max a.y + 20))

/-- `simulate_coverage_grid`: on an empty transmitter list the bounding-box
reduction raises (`none`); otherwise the coverage area is derived from the
positions and every grid cell of the `arange` lattice over it carries the
`cellCover` value and winner. -/
noncomputable def simulate_coverage_grid (aps : List AP) :
    Option (((ℝ × ℝ) × (ℝ × ℝ)) × ((ℝ × ℝ) → ℝ × ℤ)) :=
  match aps with
  | [] => none
  | a :: rest => some (coverageBBox a rest, fun p => cellCover aps p)

/-! ## Auxiliary definitions used by the statements -/

/-- The plain running maximum of the estimates, starting from `s`. -/
noncomputable def estFold (p : ℝ × ℝ) (s : ℝ) (l : List AP) : ℝ :=
  l.foldl (fun m ap => max m (estimate ap p)) s

/-- A row with at least four fields whose first coordinate fields exist but
one of which does not parse as a float. -/
def badNumericRow (row : Row) : Prop :=
  ∃ nm f1 f2 f3 r, row = nm :: f1 :: f2 :: f3 :: r ∧
    (pyFloat? f1 = none ∨ pyFloat? f2 = none ∨ pyFloat? f3 = none)

/-- A malformed row in the sense of the spec: fewer than four fields, or a
non-numeric coordinate field. -/
def malformedRow (row : Row) : Prop :=
  row.length < 4 ∨ badNumericRow row

/-- A transmitter as loaded by `real_building_coverage.load_ap_coordinates`
placed on the x-axis at the 1.5 m receiver height: frequency 2.4 GHz, power
20 dBm, position `(d, 0, 1.5)`, so that its grid distance from the origin
cell is exactly `d` (for `d ≥ 0`). -/
noncomputable def apAxis (nm : String) (d : ℝ) : AP :=
  ⟨nm, d, 0, 3 / 2, 24 * 10 ^ 8, 20⟩

/-- The grid cell at the origin. -/
noncomputable def p0 : ℝ × ℝ := (0, 0)

/-- A transmitter right at the origin cell (grid distance 0). -/
noncomputable def apOrigin : AP := apAxis "AP_00" 0

/-- A transmitter 5 m from the origin cell. -/
noncomputable def apFive : AP := apAxis "AP_01" 5

/-- A transmitter 10 m from the origin cell. -/
noncomputable def apTen : AP := apAxis "AP_02" 10

/-- A transmitter 1 mm from the origin cell. -/
noncomputable def apNear : AP := apAxis "AP_01" (1 / 1000)

/-! ## Fold lemmas about the per-cell aggregation -/

lemma estFold_cons (p : ℝ × ℝ) (s : ℝ) (ap : AP) (l : List AP) :
    estFold p s (ap :: l) = estFold p (max s (estimate ap p)) l := rfl

lemma estFold_append (p : ℝ × ℝ) (s : ℝ) (l1 l2 : List AP) :
    estFold p s (l1 ++ l2) = estFold p (estFold p s l1) l2 :=
  List.foldl_append _ _ _ _

lemma estFold_max (p : ℝ × ℝ) (a b : ℝ) (l : List AP) :
    estFold p (max a b) l = max a (estFold p b l) := by
  induction l generalizing b with
  | nil => rfl
  | cons ap rest ih =>
    rw [estFold_cons, estFold_cons, max_assoc, ih]

lemma le_estFold (p : ℝ × ℝ) (s : ℝ) (l : List AP) : s ≤ estFold p s l := by
  induction l generalizing s with
  | nil => exact le_rfl
  | cons ap rest ih =>
    rw [estFold_cons]
    exact le_trans (le_max_left _ _) (ih _)

lemma est_le_estFold (p : ℝ × ℝ) {ap : AP} :
    ∀ (s : ℝ) (l : List AP), ap ∈ l → estimate ap p ≤ estFold p s l := by
  intro s l
  induction l generalizing s with
  | nil => intro h; cases h
  | cons hd rest ih =>
    intro h
    rw [estFold_cons]
    rcases List.mem_cons.mp h with rfl | hmem
    · exact le_trans (le_max_right _ _) (le_estFold _ _ _)
    · exact ih _ hmem

lemma coverAux_fst (p : ℝ × ℝ) (l : List AP) :
    ∀ (i : ℕ) (acc : ℝ × ℤ), (coverAux p i acc l).1 = estFold p acc.1 l := by
  induction l with
  | nil => intro i acc; rfl
  | cons ap rest ih =>
    intro i acc
    rw [coverAux, ih, estFold_cons]
    by_cases h : acc.1 < estimate ap p
    · rw [if_pos h, max_eq_right h.le]
    · rw [if_neg h, max_eq_left (not_lt.mp h)]

lemma coverAux_append (p : ℝ × ℝ) (l1 l2 : List AP) :
    ∀ (i : ℕ) (acc : ℝ × ℤ),
      coverAux p i acc (l1 ++ l2) =
        coverAux p (i + l1.length) (coverAux p i acc l1) l2 := by
  induction l1 with
  | nil => intro i acc; simp [coverAux]
  | cons ap rest ih =>
    intro i acc
    rw [List.cons_append, coverAux, coverAux, ih]
    have harith : i + 1 + rest.length = i + (ap :: rest).length := by
      simp [List.length_cons]; omega
    rw [harith]

lemma coverAux_no_update (p : ℝ × ℝ) {s : ℝ} {l : List AP}
    (h : ∀ ap ∈ l, estimate ap p ≤ s) :
    ∀ (i : ℕ) (b : ℤ), coverAux p i (s, b) l = (s, b) := by
  induction l with
  | nil => intro i b; rfl
  | cons ap rest ih =>
    intro i b
    rw [coverAux]
    rw [if_neg (not_lt.mpr (h ap (List.mem_cons_self ap rest)))]
    exact ih (fun x hx => h x (List.mem_cons_of_mem _ hx)) _ _

lemma coverAux_best_nonneg (p : ℝ × ℝ) (l : List AP) :
    ∀ (i : ℕ) (acc : ℝ × ℤ), 0 ≤ acc.2 → 0 ≤ (coverAux p i acc l).2 := by
  induction l with
  | nil => intro i acc h; exact h
  | cons ap rest ih =>
    intro i acc h
    rw [coverAux]
    by_cases hlt : acc.1 < estimate ap p
    · rw [if_pos hlt]; exact ih _ _ (Int.natCast_nonneg i)
    · rw [if_neg hlt]; exact ih _ _ h

lemma coverAux_best_of_exists (p : ℝ × ℝ) (l : List AP) :
    ∀ (i : ℕ) (s : ℝ) (b : ℤ), (∃ ap ∈ l, s < estimate ap p) →
      0 ≤ (coverAux p i (s, b) l).2 := by
  induction l with
  | nil => rintro i s b ⟨ap, hap, -⟩; cases hap
  | cons hd rest ih =>
    rintro i s b ⟨ap, hap, hlt⟩
    rw [coverAux]
    by_cases hhd : s < estimate hd p
    · rw [if_pos hhd]
      exact coverAux_best_nonneg _ _ _ _ (Int.natCast_nonneg i)
    · rw [if_neg hhd]
      rcases List.mem_cons.mp hap with rfl | hmem
      · exact absurd hlt hhd
      · exact ih _ _ _ ⟨ap, hmem, hlt⟩

lemma cellCover_fst (aps : List AP) (p : ℝ × ℝ) :
    (cellCover aps p).1 = estFold p 0 aps := by
  rw [cellCover, coverAux_fst]

/-- Splitting the cell value at one transmitter: the value is the maximum of
that transmitter's estimate and the running maximum of all the others
(together with the `0` dBm initialisation). -/
lemma cellCover_fst_split (l1 l2 : List AP) (apj : AP) (p : ℝ × ℝ) :
    (cellCover (l1 ++ apj :: l2) p).1 =
      max (estimate apj p) (estFold p 0 (l1 ++ l2)) := by
  rw [cellCover_fst, estFold_append, estFold_cons, max_comm (estFold p 0 l1),
    estFold_max, estFold_append]

/-- If one transmitter's estimate strictly dominates the running maximum of
`0` and all other estimates, it ends up recorded as the winner. -/
lemma cellCover_forced_winner (l1 l2 : List AP) (apj : AP) (p : ℝ × ℝ)
    (h : estFold p 0 (l1 ++ l2) < estimate apj p) :
    (cellCover (l1 ++ apj :: l2) p).2 = (l1.length : ℤ) := by
  rw [cellCover, coverAux_append]
  rcases hacc : coverAux p 0 (0, -1) l1 with ⟨s1, b1⟩
  have hs1 : s1 = estFold p 0 l1 := by
    have := coverAux_fst p l1 0 (0, -1)
    rw [hacc] at this
    exact this
  have hs1le : s1 ≤ estFold p 0 (l1 ++ l2) := by
    rw [hs1, estFold_append]
    exact le_estFold _ _ _
  rw [coverAux, if_pos (lt_of_le_of_lt hs1le h)]
  have hrest : ∀ ap ∈ l2, estimate ap p ≤ estimate apj p := by
    intro ap hap
    refine le_trans ?_ h.le
    rw [estFold_append]
    exact est_le_estFold _ _ _ hap
  rw [coverAux_no_update p hrest]
  simp

/-! ## Numeric facts about the concrete test transmitters -/

lemma c_pos : (0 : ℝ) < c := by norm_num [c]

lemma fourPiOverC_pos : (0 : ℝ) < 4 * Real.pi / c :=
  div_pos (by positivity) c_pos

/-- At positive distance and frequency the three logarithmic Friis terms
combine into one logarithm. -/
lemma calculate_path_loss_pos_eq (d f : ℝ) (k : ℕ) (hd : 0 < d) (hf : 0 < f) :
    calculate_path_loss d f k =
      20 * Real.logb 10 (d * f * (4 * Real.pi / c)) + k * 10 := by
  rw [calculate_path_loss, if_neg (not_le.mpr hd),
    Real.logb_mul (mul_ne_zero hd.ne' hf.ne') fourPiOverC_pos.ne',
    Real.logb_mul hd.ne' hf.ne']
  ring

lemma obstacleCount_eq_zero {d : ℝ} (h : d ≤ 15) : obstacleCount d = 0 := by
  rw [obstacleCount, if_neg (not_lt.mpr (by linarith)), if_neg (not_lt.mpr h)]

lemma gridDistance_apAxis (nm : String) {d : ℝ} (hd : 0 ≤ d) :
    gridDistance (apAxis nm d) p0 = d := by
  show Real.sqrt (((0 : ℝ) - d) ^ 2 + ((0 : ℝ) - 0) ^ 2 + ((3 / 2 : ℝ) - 3 / 2) ^ 2) = d
  rw [show ((0 : ℝ) - d) ^ 2 + ((0 : ℝ) - 0) ^ 2 + ((3 / 2 : ℝ) - 3 / 2) ^ 2 = d ^ 2 by ring,
    Real.sqrt_sq hd]

lemma estimate_apAxis (nm : String) {d : ℝ} (hd : 0 < d) (h15 : d ≤ 15) :
    estimate (apAxis nm d) p0 =
      20 - 20 * Real.logb 10 (d * (24 * 10 ^ 8) * (4 * Real.pi / c)) := by
  rw [estimate, gridDistance_apAxis nm hd.le, obstacleCount_eq_zero h15]
  show (20 : ℝ) - calculate_path_loss d (24 * 10 ^ 8) 0 = _
  rw [calculate_path_loss_pos_eq d _ 0 hd (by norm_num)]
  push_cast
  ring

lemma estimate_apOrigin : estimate apOrigin p0 = 20 := by
  show estimate (apAxis "AP_00" 0) p0 = 20
  rw [estimate, gridDistance_apAxis _ le_rfl, calculate_path_loss, if_pos le_rfl]
  show (20 : ℝ) - 0 = 20
  ring

lemma estimate_apFive_neg : estimate apFive p0 < 0 := by
  show estimate (apAxis "AP_01" 5) p0 < 0
  rw [estimate_apAxis _ (by norm_num) (by norm_num)]
  have hc : c = 3 * 10 ^ 8 := rfl
  have harg : (5 : ℝ) * (24 * 10 ^ 8) * (4 * Real.pi / c) = 160 * Real.pi := by
    rw [hc]; field_simp; ring
  rw [harg]
  have h10 : (10 : ℝ) < 160 * Real.pi := by nlinarith [Real.pi_gt_three]
  have hlogb : 1 < Real.logb 10 (160 * Real.pi) := by
    calc (1 : ℝ) = Real.logb 10 10 := (Real.logb_self_eq_one (by norm_num)).symm
    _ < Real.logb 10 (160 * Real.pi) :=
        Real.logb_lt_logb (by norm_num) (by norm_num) h10
  linarith

lemma estimate_apNear_gt : 20 < estimate apNear p0 := by
  show 20 < estimate (apAxis "AP_01" (1 / 1000)) p0
  rw [estimate_apAxis _ (by norm_num) (by norm_num)]
  have hc : c = 3 * 10 ^ 8 := rfl
  have harg : (1 / 1000 : ℝ) * (24 * 10 ^ 8) * (4 * Real.pi / c) = 4 * Real.pi / 125 := by
    rw [hc]; field_simp; ring
  rw [harg]
  have hlt : (4 : ℝ) * Real.pi / 125 < 1 := by
    rw [div_lt_one (by norm_num : (0 : ℝ) < 125)]
    nlinarith [Real.pi_lt_four]
  have hneg : Real.logb 10 (4 * Real.pi / 125) < 0 :=
    Real.logb_neg (by norm_num) (by positivity) hlt
  linarith

lemma estimate_apTen_le : estimate apTen p0 ≤ 20 := by
  show estimate (apAxis "AP_02" 10) p0 ≤ 20
  rw [estimate_apAxis _ (by norm_num) (by norm_num)]
  have hc : c = 3 * 10 ^ 8 := rfl
  have harg : (10 : ℝ) * (24 * 10 ^ 8) * (4 * Real.pi / c) = 320 * Real.pi := by
    rw [hc]; field_simp; ring
  rw [harg]
  have h0 : (0 : ℝ) ≤ Real.logb 10 (320 * Real.pi) :=
    Real.logb_nonneg (by norm_num) (by nlinarith [Real.pi_gt_three])
  linarith

/-! ## Evaluated aggregations on one- and two-transmitter lists -/

lemma cellCover_single_weak (a : AP) (p : ℝ × ℝ) (h : estimate a p ≤ 0) :
    cellCover [a] p = (0, -1) := by
  rw [cellCover, coverAux,
    if_neg (not_lt.mpr (show estimate a p ≤ ((0 : ℝ), (-1 : ℤ)).1 from h))]
  rfl

lemma cellCover_pair_first (a0 a1 : AP) (p : ℝ × ℝ)
    (h0 : 0 < estimate a0 p) (h1 : estimate a1 p ≤ estimate a0 p) :
    cellCover [a0, a1] p = (estimate a0 p, 0) := by
  rw [cellCover, coverAux, if_pos (show ((0 : ℝ), (-1 : ℤ)).1 < estimate a0 p from h0),
    coverAux, if_neg (not_lt.mpr (show estimate a1 p ≤ (estimate a0 p, (0 : ℤ)).1 from h1))]
  rfl

lemma cellCover_pair_second (a0 a1 : AP) (p : ℝ × ℝ)
    (h0 : 0 < estimate a0 p) (h1 : estimate a0 p < estimate a1 p) :
    cellCover [a0, a1] p = (estimate a1 p, 1) := by
  rw [cellCover, coverAux, if_pos (show ((0 : ℝ), (-1 : ℤ)).1 < estimate a0 p from h0),
    coverAux, if_pos (show (estimate a0 p, (0 : ℤ)).1 < estimate a1 p from h1)]
  rfl

/-! ## Loader lemmas -/

lemma loadRow_ok (nm f1 f2 f3 : String) (r : Row) {x y z : ℚ}
    (h1 : pyFloat? f1 = some x) (h2 : pyFloat? f2 = some y)
    (h3 : pyFloat? f3 = some z) :
    loadRow (nm :: f1 :: f2 :: f3 :: r) = .ok (nm, x, y, z) := by
  simp [loadRow, h1, h2, h3]

lemma loadRow_error_of_malformed {row : Row} (h : malformedRow row) :
    ∃ e, loadRow row = .error e := by
  rcases h with hlen | ⟨nm, f1, f2, f3, r, rfl, hbad⟩
  · rcases row with _ | ⟨a, _ | ⟨b, _ | ⟨c1, _ | ⟨d, r⟩⟩⟩⟩
    · exact ⟨_, rfl⟩
    · exact ⟨_, rfl⟩
    · exact ⟨_, rfl⟩
    · exact ⟨_, rfl⟩
    · exfalso; simp [List.length_cons] at hlen; omega
  · refine ⟨"Warning: Could not parse row", ?_⟩
    rcases hbad with h | h | h <;> cases hf1 : pyFloat? f1 <;>
      cases hf2 : pyFloat? f2 <;> cases hf3 : pyFloat? f3 <;> simp_all [loadRow]

lemma load_transmitters_cons_ok {row : Row} {t : Tx} (h : loadRow row = .ok t)
    (rest : List Row) :
    load_transmitters (row :: rest) =
      (t :: (load_transmitters rest).1, (load_transmitters rest).2) := by
  simp [load_transmitters, h]

lemma load_transmitters_cons_error {row : Row} {e : String}
    (h : loadRow row = .error e) (rest : List Row) :
    load_transmitters (row :: rest) =
      ((load_transmitters rest).1, e :: (load_transmitters rest).2) := by
  simp [load_transmitters, h]

lemma load_transmitters_append (rows1 rows2 : List Row) :
    load_transmitters (rows1 ++ rows2) =
      ((load_transmitters rows1).1 ++ (load_transmitters rows2).1,
        (load_transmitters rows1).2 ++ (load_transmitters rows2).2) := by
  induction rows1 with
  | nil => simp [load_transmitters]
  | cons row rest ih =>
    cases h : loadRow row with
    | ok t =>
      simp [load_transmitters_cons_ok h, ih]
    | error e =>
      simp [load_transmitters_cons_error h, ih]

lemma load_transmitters_fst_nil {rows : List Row}
    (h : ∀ row ∈ rows, malformedRow row) : (load_transmitters rows).1 = [] := by
  induction rows with
  | nil => rfl
  | cons row rest ih =>
    obtain ⟨e, he⟩ := loadRow_error_of_malformed (h row (List.mem_cons_self row rest))
    rw [load_transmitters_cons_error he]
    exact ih fun r hr => h r (List.mem_cons_of_mem _ hr)

lemma load_ap_cons_ok {nm f1 f2 f3 : String} {r : Row} {x y z : ℚ}
    (h1 : pyFloat? f1 = some x) (h2 : pyFloat? f2 = some y)
    (h3 : pyFloat? f3 = some z) (rest : List Row) :
    load_ap_coordinates ((nm :: f1 :: f2 :: f3 :: r) :: rest) =
      (load_ap_coordinates rest).map fun l => (nm, x, y, z) :: l := by
  simp [load_ap_coordinates, h1, h2, h3]

lemma load_ap_cons_raise {nm f1 f2 f3 : String} {r : Row}
    (h : pyFloat? f1 = none ∨ pyFloat? f2 = none ∨ pyFloat? f3 = none)
    (rest : List Row) :
    load_ap_coordinates ((nm :: f1 :: f2 :: f3 :: r) :: rest) =
      .error "ValueError: could not convert string to float" := by
  rcases h with h | h | h <;> cases hf1 : pyFloat? f1 <;>
    cases hf2 : pyFloat? f2 <;> cases hf3 : pyFloat? f3 <;>
    simp_all [load_ap_coordinates]

lemma load_ap_cons_skip {row : Row} (h : row.length < 4) (rest : List Row) :
    load_ap_coordinates (row :: rest) = load_ap_coordinates rest := by
  rcases row with _ | ⟨a, _ | ⟨b, _ | ⟨c1, _ | ⟨d, r⟩⟩⟩⟩
  · rfl
  · rfl
  · rfl
  · rfl
  · exfalso; simp [List.length_cons] at h; omega

lemma load_ap_error {rows : List Row} (h : ∃ row ∈ rows, badNumericRow row) :
    ∃ msg, load_ap_coordinates rows = .error msg := by
  induction rows with
  | nil => rcases h with ⟨row, hmem, -⟩; cases hmem
  | cons row rest ih =>
    rcases h with ⟨r, hmem, hbad⟩
    rcases List.mem_cons.mp hmem with rfl | hmem2
    · obtain ⟨nm, f1, f2, f3, rr, rfl, hb⟩ := hbad
      exact ⟨_, load_ap_cons_raise hb rest⟩
    · obtain ⟨msg, hmsg⟩ := ih ⟨r, hmem2, hbad⟩
      rcases row with _ | ⟨nm, _ | ⟨f1, _ | ⟨f2, _ | ⟨f3, rr⟩⟩⟩⟩
      · exact ⟨msg, by rw [load_ap_cons_skip (by simp) rest, hmsg]⟩
      · exact ⟨msg, by rw [load_ap_cons_skip (by simp) rest, hmsg]⟩
      · exact ⟨msg, by rw [load_ap_cons_skip (by simp) rest, hmsg]⟩
      · exact ⟨msg, by rw [load_ap_cons_skip (by simp) rest, hmsg]⟩
      · cases hf1 : pyFloat? f1 with
        | none => exact ⟨_, load_ap_cons_raise (Or.inl hf1) rest⟩
        | some x =>
          cases hf2 : pyFloat? f2 with
          | none => exact ⟨_, load_ap_cons_raise (Or.inr (Or.inl hf2)) rest⟩
          | some y =>
            cases hf3 : pyFloat? f3 with
            | none => exact ⟨_, load_ap_cons_raise (Or.inr (Or.inr hf3)) rest⟩
            | some z =>
              exact ⟨msg, by rw [load_ap_cons_ok hf1 hf2 hf3 rest, hmsg]; rfl⟩

lemma load_ap_append {rows1 rows2 : List Row} {l1 l2 : List Tx}
    (h1 : load_ap_coordinates rows1 = .ok l1)
    (h2 : load_ap_coordinates rows2 = .ok l2) :
    load_ap_coordinates (rows1 ++ rows2) = .ok (l1 ++ l2) := by
  induction rows1 generalizing l1 with
  | nil =>
    simp only [load_ap_coordinates] at h1
    cases h1
    simpa using h2
  | cons row rest ih =>
    rcases row with _ | ⟨nm, _ | ⟨f1, _ | ⟨f2, _ | ⟨f3, rr⟩⟩⟩⟩
    · rw [load_ap_cons_skip (by simp) rest] at h1
      rw [List.cons_append, load_ap_cons_skip (by simp) (rest ++ rows2)]
      exact ih h1
    · rw [load_ap_cons_skip (by simp) rest] at h1
      rw [List.cons_append, load_ap_cons_skip (by simp) (rest ++ rows2)]
      exact ih h1
    · rw [load_ap_cons_skip (by simp) rest] at h1
      rw [List.cons_append, load_ap_cons_skip (by simp) (rest ++ rows2)]
      exact ih h1
    · rw [load_ap_cons_skip (by simp) rest] at h1
      rw [List.cons_append, load_ap_cons_skip (by simp) (rest ++ rows2)]
      exact ih h1
    · cases hf1 : pyFloat? f1 with
      | none => rw [load_ap_cons_raise (Or.inl hf1) rest] at h1; cases h1
      | some x =>
        cases hf2 : pyFloat? f2 with
        | none => rw [load_ap_cons_raise (Or.inr (Or.inl hf2)) rest] at h1; cases h1
        | some y =>
          cases hf3 : pyFloat? f3 with
          | none => rw [load_ap_cons_raise (Or.inr (Or.inr hf3)) rest] at h1; cases h1
          | some z =>
            rw [load_ap_cons_ok hf1 hf2 hf3 rest] at h1
            cases hrest : load_ap_coordinates rest with
            | error msg => rw [hrest] at h1; cases h1
            | ok tl =>
              rw [hrest] at h1
              cases h1
              rw [List.cons_append, load_ap_cons_ok hf1 hf2 hf3 (rest ++ rows2),
                ih hrest]
              rfl

/-! ## The claims -/

/-- C1 (amended): at every grid cell the stored signal value equals the
maximum of the 0 dBm accumulator initialisation and the per-transmitter
estimates — a maximum, never a sum or an average, but floored at 0 dBm
because `signal_strength` starts from `np.zeros_like(X)` and is only
replaced by strictly stronger estimates. -/
theorem claim_C1 (aps : List AP) (p : ℝ × ℝ) :
    (cellCover aps p).1 = (aps.map fun ap => estimate ap p).foldl max 0 := by
  rw [cellCover_fst, estFold, List.foldl_map]

/-- C1 counterexample: with the single transmitter `apFive` the estimate at
the origin cell is negative, yet the stored value is the 0 dBm
initialisation — not the maximum over the transmitters, which the claim as
stated requires. -/
theorem claim_C1_counterexample :
    estimate apFive p0 < 0 ∧ (cellCover [apFive] p0).1 = 0 := by
  refine ⟨estimate_apFive_neg, ?_⟩
  rw [cellCover_single_weak _ _ estimate_apFive_neg.le]

/-- C2: at positive grid distance the estimate is
`tx_power - (20*log10(d) + 20*log10(f) + 20*log10(4*pi/c) + walls*10)` with
the wall count a step function of distance: 0 walls at or below 15 m, 1 wall
above 15 m up to 30 m, 2 walls beyond 30 m. -/
theorem claim_C2 (ap : AP) (p : ℝ × ℝ) (h : 0 < gridDistance ap p) :
    estimate ap p =
      ap.power_dbm -
        (20 * Real.logb 10 (gridDistance ap p) + 20 * Real.logb 10 ap.frequency +
          20 * Real.logb 10 (4 * Real.pi / c) +
          (obstacleCount (gridDistance ap p)) * 10) ∧
    (gridDistance ap p ≤ 15 → obstacleCount (gridDistance ap p) = 0) ∧
    (15 < gridDistance ap p → gridDistance ap p ≤ 30 →
      obstacleCount (gridDistance ap p) = 1) ∧
    (30 < gridDistance ap p → obstacleCount (gridDistance ap p) = 2) := by
  refine ⟨?_, fun h15 => obstacleCount_eq_zero h15, fun h15 h30 => ?_, fun h30 => ?_⟩
  · rw [estimate, calculate_path_loss, if_neg (not_le.mpr h)]
  · rw [obstacleCount, if_neg (not_lt.mpr h30), if_pos h15]
  · rw [obstacleCount, if_pos h30]

/-- C2 witness: the transmitter 5 m from the origin cell satisfies the
positive-distance hypothesis, and the Friis decomposition holds there. -/
theorem claim_C2_witness :
    0 < gridDistance apFive p0 ∧
      (estimate apFive p0 =
        apFive.power_dbm -
          (20 * Real.logb 10 (gridDistance apFive p0) +
            20 * Real.logb 10 apFive.frequency +
            20 * Real.logb 10 (4 * Real.pi / c) +
            (obstacleCount (gridDistance apFive p0)) * 10) ∧
      (gridDistance apFive p0 ≤ 15 → obstacleCount (gridDistance apFive p0) = 0) ∧
      (15 < gridDistance apFive p0 → gridDistance apFive p0 ≤ 30 →
        obstacleCount (gridDistance apFive p0) = 1) ∧
      (30 < gridDistance apFive p0 → obstacleCount (gridDistance apFive p0) = 2)) := by
  have h : 0 < gridDistance apFive p0 := by
    rw [show gridDistance apFive p0 = 5 from gridDistance_apAxis _ (by norm_num)]
    norm_num
  exact ⟨h, claim_C2 apFive p0 h⟩

/-- C3 (amended): in `load_transmitters` every row with fewer than four
fields or a non-numeric coordinate field is excluded from the transmitter
output and contributes exactly one diagnostic entry, in place, and the
loader is total (the `ValueError` is caught).  The empty-name part of the
claim is false — see the counterexample — and the lightweight loader
`load_ap_coordinates` in fact raises on a non-numeric row (`load_ap_error`). -/
theorem claim_C3 (pre post : List Row) (row : Row) (hmal : malformedRow row) :
    ∃ e, load_transmitters (pre ++ row :: post) =
      ((load_transmitters pre).1 ++ (load_transmitters post).1,
        (load_transmitters pre).2 ++ e :: (load_transmitters post).2) := by
  obtain ⟨e, he⟩ := loadRow_error_of_malformed hmal
  refine ⟨e, ?_⟩
  rw [load_transmitters_append, load_transmitters_cons_error he post]

/-- C3 witness: a row with field `"x"` in coordinate position, between a
valid row and the end of the file, is dropped with one diagnostic. -/
theorem claim_C3_witness :
    malformedRow ["B", "x", "2", "3"] ∧
      ∃ e, load_transmitters ([["A", "1", "2", "3"]] ++ ["B", "x", "2", "3"] :: []) =
        ((load_transmitters [["A", "1", "2", "3"]]).1 ++
            (load_transmitters ([] : List Row)).1,
          (load_transmitters [["A", "1", "2", "3"]]).2 ++
            e :: (load_transmitters ([] : List Row)).2) := by
  have hmal : malformedRow ["B", "x", "2", "3"] :=
    Or.inr ⟨"B", "x", "2", "3", [], rfl, Or.inl (by decide)⟩
  exact ⟨hmal, claim_C3 [["A", "1", "2", "3"]] [] ["B", "x", "2", "3"] hmal⟩

/-- C3 counterexample: the row `,1,2,3` has an empty name, four fields and
numeric coordinates; the loader includes it (with empty name) and records no
diagnostic, contradicting the claim that empty-name rows are excluded with
one diagnostic entry. -/
theorem claim_C3_counterexample :
    load_transmitters [["", "1", "2", "3"]] = ([("", 1, 2, 3)], []) := by decide

/-- C4 (amended): in `simple_demo.main` a coordinate file with zero
parseable rows reports failure (exit code 1) and writes no artifacts.  The
lightweight pipeline does not validate this — see the counterexample. -/
theorem claim_C4 (rows : List Row) (h : ∀ row ∈ rows, malformedRow row) :
    simpleDemoMain rows = (1, []) := by
  have hnil : (load_transmitters rows).1 = [] := load_transmitters_fst_nil h
  simp [simpleDemoMain, hnil]

/-- C4 witness: a one-row file whose row has two fields. -/
theorem claim_C4_witness :
    (∀ row ∈ [["a", "b"]], malformedRow row) ∧
      simpleDemoMain [["a", "b"]] = (1, []) := by
  have h : ∀ row ∈ [["a", "b"]], malformedRow row := by
    intro row hrow
    simp only [List.mem_singleton] at hrow
    subst hrow
    exact Or.inl (by decide)
  exact ⟨h, claim_C4 _ h⟩

/-- C4 counterexample: on a file whose only row has two fields (zero
parseable rows), `demo_lightweight.main` exits 0 and its test case writes
both artifact files, contradicting the claim that the pipeline exits 1 and
writes nothing. -/
theorem claim_C4_counterexample :
    (∀ row ∈ [["a", "b"]], malformedRow row) ∧
      demoLightweightMain [["a", "b"]] [["a", "b"]] = 0 ∧
      (demoLightweightCase [["a", "b"]]).2 =
        ["simulation_results.json", "coverage_summary.txt"] := by
  refine ⟨?_, by decide, by decide⟩
  intro row hrow
  simp only [List.mem_singleton] at hrow
  subst hrow
  exact Or.inl (by decide)

/-- C5 (amended): for fixed frequency and obstacle count the path loss is
monotonically non-decreasing on positive distances `0 < d1 ≤ d2`.  At
`d1 = 0` the claim fails: the loss is defined to be `0` there, while at
small positive distances the Friis term is negative. -/
theorem claim_C5 (f : ℝ) (k : ℕ) (d1 d2 : ℝ) (h1 : 0 < d1) (h12 : d1 ≤ d2) :
    calculate_path_loss d1 f k ≤ calculate_path_loss d2 f k := by
  have h2 : 0 < d2 := lt_of_lt_of_le h1 h12
  rw [calculate_path_loss, if_neg (not_le.mpr h1),
    calculate_path_loss, if_neg (not_le.mpr h2)]
  have hlog := Real.logb_le_logb_of_le (show (1 : ℝ) < 10 by norm_num) h1 h12
  linarith

/-- C5 witness: monotonicity between 1 m and 10 m at 2.4 GHz. -/
theorem claim_C5_witness :
    (0 : ℝ) < 1 ∧ (1 : ℝ) ≤ 10 ∧
      calculate_path_loss 1 (24 * 10 ^ 8) 0 ≤ calculate_path_loss 10 (24 * 10 ^ 8) 0 :=
  ⟨by norm_num, by norm_num, claim_C5 (24 * 10 ^ 8) 0 1 10 (by norm_num) (by norm_num)⟩

/-- C5 counterexample: `0 ≤ 1e-9` but the loss at distance 0 is `0`, while
at `1e-9` m and 2.4 GHz the Friis term is negative, so the loss strictly
decreases — monotonicity including `d1 = 0` is false. -/
theorem claim_C5_counterexample :
    (0 : ℝ) ≤ 1 / 10 ^ 9 ∧
      calculate_path_loss (1 / 10 ^ 9) (24 * 10 ^ 8) 0 <
        calculate_path_loss 0 (24 * 10 ^ 8) 0 := by
  refine ⟨by norm_num, ?_⟩
  rw [show calculate_path_loss 0 (24 * 10 ^ 8) 0 = 0 from
    by rw [calculate_path_loss, if_pos le_rfl]]
  rw [calculate_path_loss_pos_eq _ _ 0 (by norm_num) (by norm_num)]
  have hc : c = 3 * 10 ^ 8 := rfl
  have harg : (1 / 10 ^ 9 : ℝ) * (24 * 10 ^ 8) * (4 * Real.pi / c) =
      16 * Real.pi / (5 * 10 ^ 8) := by
    rw [hc]; field_simp; ring
  rw [harg]
  have hlt : (16 : ℝ) * Real.pi / (5 * 10 ^ 8) < 1 := by
    rw [div_lt_one (by norm_num)]
    nlinarith [Real.pi_lt_four]
  have hneg : Real.logb 10 (16 * Real.pi / (5 * 10 ^ 8)) < 0 :=
    Real.logb_neg (by norm_num) (by positivity) hlt
  push_cast
  linarith

/-- C6: the path loss at distance exactly 0 is 0 — the zero-distance edge
case is defined (total function on the reals) and returns 0. -/
theorem claim_C6 (f : ℝ) (k : ℕ) : calculate_path_loss 0 f k = 0 := by
  rw [calculate_path_loss, if_pos le_rfl]

/-- C7: a well-formed row `name,x,y,z` with parseable coordinates and
non-empty name contributes exactly the transmitter `(name, x, y, z)`, in
input-row order, both in `load_transmitters` and in `load_ap_coordinates`
(the latter hypothesised on the surrounding rows loading without raising). -/
theorem claim_C7 (pre post : List Row) (nm f1 f2 f3 : String) (r : Row)
    (x y z : ℚ) (l1 l2 : List Tx) (_hnm : nm ≠ "")
    (h1 : pyFloat? f1 = some x) (h2 : pyFloat? f2 = some y)
    (h3 : pyFloat? f3 = some z)
    (hpre : load_ap_coordinates pre = .ok l1)
    (hpost : load_ap_coordinates post = .ok l2) :
    (load_transmitters (pre ++ (nm :: f1 :: f2 :: f3 :: r) :: post)).1 =
      (load_transmitters pre).1 ++ (nm, x, y, z) :: (load_transmitters post).1 ∧
    load_ap_coordinates (pre ++ (nm :: f1 :: f2 :: f3 :: r) :: post) =
      .ok (l1 ++ (nm, x, y, z) :: l2) := by
  constructor
  · rw [load_transmitters_append,
      load_transmitters_cons_ok (loadRow_ok nm f1 f2 f3 r h1 h2 h3) post]
  · have hrow : load_ap_coordinates ((nm :: f1 :: f2 :: f3 :: r) :: post) =
        .ok ((nm, x, y, z) :: l2) := by
      rw [load_ap_cons_ok h1 h2 h3 post, hpost]
      rfl
    exact load_ap_append hpre hrow

/-- C7 witness: the row `AP_01,5,10,3` after a junk short row is loaded as
exactly `(AP_01, 5, 10, 3)` in position, by both loaders. -/
theorem claim_C7_witness :
    (("AP_01" : String) ≠ "" ∧ pyFloat? "5" = some 5 ∧ pyFloat? "10" = some 10 ∧
      pyFloat? "3" = some 3 ∧
      load_ap_coordinates [["zz"]] = .ok [] ∧
      load_ap_coordinates ([] : List Row) = .ok []) ∧
    ((load_transmitters ([["zz"]] ++ ("AP_01" :: "5" :: "10" :: "3" :: []) :: [])).1 =
        (load_transmitters [["zz"]]).1 ++ ("AP_01", 5, 10, 3) ::
          (load_transmitters ([] : List Row)).1 ∧
      load_ap_coordinates ([["zz"]] ++ ("AP_01" :: "5" :: "10" :: "3" :: []) :: []) =
        .ok ([] ++ ("AP_01", 5, 10, 3) :: [])) := by
  refine ⟨⟨by decide, by decide, by decide, by decide, rfl, rfl⟩, ?_⟩
  exact claim_C7 [["zz"]] [] "AP_01" "5" "10" "3" [] 5 10 3 [] []
    (by decide) (by decide) (by decide) (by decide) rfl rfl

/-- C8 (amended): changing the position of a transmitter that is not the
winner at a cell leaves the cell's value unchanged provided the estimate at
the new position does not exceed the cell's stored value.  Without that
proviso the claim is false — see the counterexample, where the moved
non-winner becomes the new winner. -/
theorem claim_C8 (l1 l2 : List AP) (apj ap' : AP) (p : ℝ × ℝ)
    (hwin : (cellCover (l1 ++ apj :: l2) p).2 ≠ (l1.length : ℤ))
    (hle : estimate ap' p ≤ (cellCover (l1 ++ apj :: l2) p).1) :
    (cellCover (l1 ++ ap' :: l2) p).1 = (cellCover (l1 ++ apj :: l2) p).1 := by
  have hjle : estimate apj p ≤ estFold p 0 (l1 ++ l2) := by
    by_contra hgt
    push_neg at hgt
    exact hwin (cellCover_forced_winner l1 l2 apj p hgt)
  have hV : (cellCover (l1 ++ apj :: l2) p).1 = estFold p 0 (l1 ++ l2) := by
    rw [cellCover_fst_split]
    exact max_eq_right hjle
  rw [cellCover_fst_split, hV]
  rw [hV] at hle
  exact max_eq_right hle

/-- C8 witness: `apFive` is not the winner at the origin cell next to
`apOrigin`; moving it to 10 m (estimate still below the stored 20 dBm)
leaves the cell value unchanged. -/
theorem claim_C8_witness :
    ((cellCover [apOrigin, apFive] p0).2 ≠ (([apOrigin] : List AP).length : ℤ) ∧
      estimate apTen p0 ≤ (cellCover [apOrigin, apFive] p0).1) ∧
    (cellCover [apOrigin, apTen] p0).1 = (cellCover [apOrigin, apFive] p0).1 := by
  have h20 : estimate apOrigin p0 = 20 := estimate_apOrigin
  have hpair : cellCover [apOrigin, apFive] p0 = (estimate apOrigin p0, 0) :=
    cellCover_pair_first _ _ _ (by rw [h20]; norm_num)
      (le_trans estimate_apFive_neg.le (by rw [h20]; norm_num))
  have hwin : (cellCover [apOrigin, apFive] p0).2 ≠
      (([apOrigin] : List AP).length : ℤ) := by
    simp [hpair]
  have hle : estimate apTen p0 ≤ (cellCover [apOrigin, apFive] p0).1 := by
    rw [hpair]
    show estimate apTen p0 ≤ estimate apOrigin p0
    rw [h20]
    exact estimate_apTen_le
  exact ⟨⟨hwin, hle⟩, claim_C8 [apOrigin] [] apFive apTen p0 hwin hle⟩

/-- C8 counterexample: `apFive` is not the winner at the origin cell, but
moving it (only its position changes) to 1 mm from the cell changes the
cell's stored value — the claim without the proviso is false. -/
theorem claim_C8_counterexample :
    (cellCover [apOrigin, apFive] p0).2 ≠ 1 ∧
      (cellCover [apOrigin, apNear] p0).1 ≠ (cellCover [apOrigin, apFive] p0).1 := by
  have h20 : estimate apOrigin p0 = 20 := estimate_apOrigin
  have hpair : cellCover [apOrigin, apFive] p0 = (estimate apOrigin p0, 0) :=
    cellCover_pair_first _ _ _ (by rw [h20]; norm_num)
      (le_trans estimate_apFive_neg.le (by rw [h20]; norm_num))
  have hpair2 : cellCover [apOrigin, apNear] p0 = (estimate apNear p0, 1) :=
    cellCover_pair_second _ _ _ (by rw [h20]; norm_num)
      (by rw [h20]; exact estimate_apNear_gt)
  constructor
  · simp [hpair]
  · rw [hpair, hpair2]
    show estimate apNear p0 ≠ estimate apOrigin p0
    rw [h20]
    exact ne_of_gt estimate_apNear_gt

/-- C9: the stored cell value is never below 0 dBm; it equals the maximum of
0 dBm and the per-transmitter estimates; and the stored winner index is the
sentinel -1 exactly when no transmitter's estimate at the cell exceeds
0 dBm. -/
theorem claim_C9 (aps : List AP) (p : ℝ × ℝ) :
    0 ≤ (cellCover aps p).1 ∧
    (cellCover aps p).1 = (aps.map fun ap => estimate ap p).foldl max 0 ∧
    ((cellCover aps p).2 = -1 ↔ ∀ ap ∈ aps, estimate ap p ≤ 0) := by
  refine ⟨?_, ?_, ?_, ?_⟩
  · rw [cellCover_fst]
    exact le_estFold p 0 aps
  · rw [cellCover_fst, estFold, List.foldl_map]
  · intro hbest ap hap
    by_contra hgt
    push_neg at hgt
    have hge := coverAux_best_of_exists p aps 0 0 (-1) ⟨ap, hap, hgt⟩
    rw [cellCover] at hbest
    omega
  · intro hall
    rw [cellCover, coverAux_no_update p hall 0 (-1)]

/-- C10: `simulate_coverage_grid` has no output for the empty transmitter
list — the bounding-box reduction over zero positions fails before any grid
is produced — and it succeeds on every non-empty list. -/
theorem claim_C10 :
    simulate_coverage_grid [] = none ∧
      ∀ (a : AP) (l : List AP), (simulate_coverage_grid (a :: l)).isSome :=
  ⟨rfl, fun _ _ => rfl⟩

end SionnaSpec
